import Mathlib

/-!
# Shallow embedding of the vk_user_api service (src/app.py)

The service is an HTTP facade over a Neo4j graph database.  We embed the
graph state as an explicit structure (nodes with labels and properties,
directed typed edges) and each route handler as a pure function from the
request data and the graph to an HTTP status plus the new graph.  Cypher
queries appearing literally in `app.py` are translated one by one into
operations on this state.
-/

set_option autoImplicit false

namespace VkApi

/-- Scalar values stored in node properties and JSON bodies. -/
inductive Val where
  | vnull : Val
  | vint : Int → Val
  | vstr : String → Val
deriving DecidableEq, Repr

/-- JSON-ish values as they occur in request bodies and node properties:
a scalar or an array of scalars. -/
inductive JVal where
  | js : Val → JVal
  | jarr : List Val → JVal
deriving DecidableEq, Repr

/-- Association-list lookup used for both Python dict access and node
property access (first binding wins, as dict keys are unique). -/
def plookup (ps : List (String × JVal)) (k : String) : Option JVal :=
  match ps with
  | [] => none
  | (k', v) :: rest => if k' = k then some v else plookup rest k

/-- A graph node: an internal identity `nid`, its Neo4j label, and its
property map. -/
structure GNode where
  nid : Nat
  nodeLabel : String
  props : List (String × JVal)
deriving DecidableEq, Repr

/-- A directed typed relationship between two node identities. -/
structure GEdge where
  src : Nat
  dst : Nat
  rtype : String
deriving DecidableEq, Repr

/-- The graph database state. `nextId` supplies fresh internal ids. -/
structure Graph where
  nodes : List GNode
  edges : List GEdge
  nextId : Nat
deriving DecidableEq, Repr

/-- Reading a property in Cypher (`n.key`): missing properties read as null. -/
def propOf (n : GNode) (k : String) : JVal :=
  (plookup n.props k).getD (JVal.js Val.vnull)

/-- Does node `n` match the Cypher pattern `(n:lab {id: $v})`?  A null
parameter matches nothing (Cypher equality with null is null). -/
def nodeMatches (lab : String) (idv : JVal) (n : GNode) : Bool :=
  decide (n.nodeLabel = lab ∧ idv ≠ JVal.js Val.vnull ∧ propOf n "id" = idv)

/-- Is there a node with the given internal id? (Cypher `()` endpoints of a
relationship pattern must be bound to existing nodes.) -/
def hasNid (g : Graph) (i : Nat) : Bool :=
  g.nodes.any (fun m => decide (m.nid = i))

/-! ## POST /nodes (`create_node_and_relationships`) -/

/-- The six parameters interpolated into the `CREATE` query of the POST
/nodes handler. -/
def requiredKeys : List String := ["id", "label", "name", "sex", "city", "screen_name"]

/-- Rendering of the body's `label` value into the query text
(`node_data.get("label", "User")` interpolated via an f-string). -/
def labelToString : JVal → String
  | JVal.js (Val.vstr s) => s
  | JVal.js (Val.vint n) => toString n
  | JVal.js Val.vnull => "None"
  | JVal.jarr _ => "[]"

/-- The handler line `label = node_data.get("label", "User")`. -/
def getLabel (body : List (String × JVal)) : String :=
  match plookup body "label" with
  | some v => labelToString v
  | none => "User"

/-- The node built by the handler's `CREATE (u:{label} {id: $id, label:
$label, name: $name, sex: $sex, city: $city, screen_name: $screen_name})`
query, given the six parameter values. -/
def mkCreatedNode (body : List (String × JVal)) (nid : Nat)
    (i l nm sx ct sn : JVal) : GNode :=
  ⟨nid, getLabel body,
    [("id", i), ("label", l), ("name", nm), ("sex", sx), ("city", ct), ("screen_name", sn)]⟩

/-- Run the handler's CREATE query.  A parameter referenced by the query but
absent from the body makes the query fail (Neo4j `ParameterMissing`), which
`run_query` surfaces as HTTP 500; we model failure as `none`. -/
def runCreateNode (body : List (String × JVal)) (g : Graph) : Option Graph :=
  match plookup body "id", plookup body "label", plookup body "name",
        plookup body "sex", plookup body "city", plookup body "screen_name" with
  | some i, some l, some nm, some sx, some ct, some sn =>
      some { g with
        nodes := g.nodes ++ [mkCreatedNode body g.nextId i l nm sx ct sn],
        nextId := g.nextId + 1 }
  | _, _, _, _, _, _ => none

/-- Run a relationship-creation query of the shape
`MATCH (a:srcLabel {id: $srcId}), (b:dstLabel {id: $dstId}) CREATE (a)-[:rtype]->(b)`:
one new edge for every pair in the cartesian product of the two match sets. -/
def runRelQuery (srcLabel dstLabel rtype : String) (srcId dstId : JVal)
    (g : Graph) : Graph :=
  let srcs := g.nodes.filter (nodeMatches srcLabel srcId)
  let dsts := g.nodes.filter (nodeMatches dstLabel dstId)
  { g with edges := g.edges ++ srcs.flatMap (fun a => dsts.map (fun b => ⟨a.nid, b.nid, rtype⟩)) }

/-- Python iteration over a dict value: lists iterate their elements,
strings iterate their characters, other scalars are not iterable
(`TypeError`, an unhandled 500). -/
def iterElems : JVal → Option (List Val)
  | JVal.jarr xs => some xs
  | JVal.js (Val.vstr s) => some (s.toList.map (fun c => Val.vstr (String.singleton c)))
  | JVal.js _ => none

/-- The `if "follows" in node_data:` block: for each element of
`node_data["follows"]`, run
`MATCH (u:User {id: $id}), (f:User {id: $follow_id}) CREATE (u)-[:FOLLOWS]->(f)`.
`none` models an unhandled exception (HTTP 500). -/
def followsStep (body : List (String × JVal)) (g : Graph) : Option Graph :=
  match plookup body "follows" with
  | none => some g
  | some fv =>
    match iterElems fv, plookup body "id" with
    | some ids, some i =>
        some (ids.foldl
          (fun gacc fid => runRelQuery "User" "User" "FOLLOWS" i (JVal.js fid) gacc) g)
    | _, _ => none

/-- The `if "subscribes" in node_data:` block.  Note two source quirks kept
faithfully: the guard tests the key `"subscribes"` while the loop reads
`node_data["subscribed"]` (a `KeyError`, hence 500, when only `"subscribes"`
is present), and the query matches the target as `(s:User {id: $subscribe_id})`,
i.e. with label `User`, not `Group`. -/
def subscribesStep (body : List (String × JVal)) (g : Graph) : Option Graph :=
  match plookup body "subscribes" with
  | none => some g
  | some _ =>
    match plookup body "subscribed" with
    | none => none
    | some sv =>
      match iterElems sv, plookup body "id" with
      | some ids, some i =>
          some (ids.foldl
            (fun gacc sid => runRelQuery "User" "User" "SUBSCRIBED" i (JVal.js sid) gacc) g)
      | _, _ => none

/-- The POST /nodes handler body (after the auth dependency): 400 on a
missing/empty body, then the CREATE query, then the follows and subscribes
blocks; any query failure surfaces as 500 with the work done so far kept
(the steps are not atomic). -/
def postNodes (body : List (String × JVal)) (g : Graph) : Nat × Graph :=
  if body = [] then (400, g)
  else
    match runCreateNode body g with
    | none => (500, g)
    | some g1 =>
      match followsStep body g1 with
      | none => (500, g1)
      | some g2 =>
        match subscribesStep body g2 with
        | none => (500, g2)
        | some g3 => (200, g3)

/-! ## GET /user/{user_id} (`get_user`) -/

/-- Numeric value of a list of decimal digits. -/
def digitsVal (cs : List Char) : Nat :=
  cs.foldl (fun a c => a * 10 + (c.toNat - 48)) 0

/-- Nonempty all-decimal-digit string body. -/
def allDigits (cs : List Char) : Bool :=
  decide (cs ≠ []) && cs.all Char.isDigit

/-- Optional leading sign of a numeric literal. -/
def splitSign : List Char → Int × List Char
  | '-' :: cs => (-1, cs)
  | '+' :: cs => (1, cs)
  | cs => (1, cs)

/-- Model of Cypher `toInteger` applied to a string: an integer literal
parses exactly; otherwise a plain decimal literal (`digits.digits`) parses
and truncates toward zero; anything else (including exponent notation,
which we do not model) yields null, here `none`. -/
def toIntegerStr (s : String) : Option Int :=
  let p := splitSign s.toList
  if allDigits p.2 then some (p.1 * (digitsVal p.2 : Int))
  else
    match p.2.splitOn '.' with
    | [ip, fp] =>
      if ip.all Char.isDigit && fp.all Char.isDigit && decide (ip ≠ [] ∨ fp ≠ []) then
        some (p.1 * (digitsVal ip : Int))
      else none
    | _ => none

/-- Match set of `MATCH (u:User {id: toInteger($user_id)})`; a failed
coercion gives a null id, which matches nothing. -/
def userLookup (uid : String) (g : Graph) : List GNode :=
  match toIntegerStr uid with
  | none => []
  | some k => g.nodes.filter (nodeMatches "User" (JVal.js (Val.vint k)))

/-- The flattened response fields the handler builds from the first
returned record. -/
def userFields (u : GNode) : List (String × JVal) :=
  [("id", propOf u "id"), ("name", propOf u "name"),
   ("screen_name", propOf u "screen_name"), ("sex", propOf u "sex"),
   ("city", propOf u "city")]

/-- The GET /user/{user_id} handler: 404 when the query returns no rows,
otherwise the flattened fields of `result[0]`. -/
def getUser (uid : String) (g : Graph) : Nat × List (String × JVal) :=
  match userLookup uid g with
  | [] => (404, [])
  | u :: _ => (200, userFields u)

/-! ## GET /top-users and GET /top-groups -/

/-- Rows of `MATCH (x:lab)<-[:rtype]-()`: one `(x.id, x.name)` row per
incoming edge of the right type whose source node exists. -/
def incomingRows (g : Graph) (lab rtype : String) : List (JVal × JVal) :=
  (g.nodes.filter (fun n => decide (n.nodeLabel = lab))).flatMap (fun n =>
    (g.edges.filter (fun e =>
      decide (e.dst = n.nid ∧ e.rtype = rtype) && hasNid g e.src)).map
      (fun _ => (propOf n "id", propOf n "name")))

/-- Aggregation step of `RETURN x.id, x.name, COUNT(*)`: bump the count of
one grouping key. -/
def bumpRow (acc : List ((JVal × JVal) × Nat)) (r : JVal × JVal) :
    List ((JVal × JVal) × Nat) :=
  match acc with
  | [] => [(r, 1)]
  | (k, c) :: rest => if k = r then (k, c + 1) :: rest else (k, c) :: bumpRow rest r

/-- Group the match rows by `(id, name)` and count each group. -/
def tally (rows : List (JVal × JVal)) : List ((JVal × JVal) × Nat) :=
  rows.foldl bumpRow []

/-- Insert into a count-descending list, keeping it descending
(`ORDER BY count DESC`). -/
def insertDesc (x : (JVal × JVal) × Nat) :
    List ((JVal × JVal) × Nat) → List ((JVal × JVal) × Nat)
  | [] => [x]
  | y :: ys => if y.2 < x.2 then x :: y :: ys else y :: insertDesc x ys

/-- Sort the aggregated rows by descending count. -/
def sortDesc (l : List ((JVal × JVal) × Nat)) : List ((JVal × JVal) × Nat) :=
  l.foldr insertDesc []

/-- GET /top-users: `(id, name, followers_count)` rows, count-descending,
at most 5 (`ORDER BY followers_count DESC LIMIT 5`). -/
def topUsers (g : Graph) : List (JVal × JVal × Nat) :=
  ((sortDesc (tally (incomingRows g "User" "FOLLOWS"))).take 5).map
    (fun p => (p.1.1, p.1.2, p.2))

/-- GET /top-groups: `(id, name, subscribers_count)` rows, count-descending,
at most 5. -/
def topGroups (g : Graph) : List (JVal × JVal × Nat) :=
  ((sortDesc (tally (incomingRows g "Group" "SUBSCRIBED"))).take 5).map
    (fun p => (p.1.1, p.1.2, p.2))

/-! ## DELETE /nodes/{label}/{node_id} (`delete_node_and_relations`) -/

/-- First query: `MATCH (n:lab {id: $node_id})-[r]->() DELETE r` removes
every edge whose source is a matching node and whose target node exists. -/
def delOutgoing (lab : String) (idv : JVal) (g : Graph) : Graph :=
  { g with edges := g.edges.filter (fun e =>
      !(g.nodes.any (fun n => nodeMatches lab idv n && decide (n.nid = e.src))
        && hasNid g e.dst)) }

/-- Second query: `MATCH (n:lab {id: $node_id})<-[r]-() DELETE r` removes
every edge whose target is a matching node and whose source node exists. -/
def delIncoming (lab : String) (idv : JVal) (g : Graph) : Graph :=
  { g with edges := g.edges.filter (fun e =>
      !(g.nodes.any (fun n => nodeMatches lab idv n && decide (n.nid = e.dst))
        && hasNid g e.src)) }

/-- Third query: `MATCH (n:lab {id: $node_id}) DELETE n`. -/
def delNodeOnly (lab : String) (idv : JVal) (g : Graph) : Graph :=
  { g with nodes := g.nodes.filter (fun n => !nodeMatches lab idv n) }

/-- The DELETE /nodes/{label}/{node_id} handler body: outgoing edges, then
incoming edges, then the node itself; always `{"status": "success"}`. -/
def deleteNodeAndRelations (lab : String) (node_id : Int) (g : Graph) :
    Nat × Graph :=
  let idv := JVal.js (Val.vint node_id)
  (200, delNodeOnly lab idv (delIncoming lab idv (delOutgoing lab idv g)))

/-! ## Bearer-token guard -/

/-- The module-level secret (`SECRET_TOKEN = "tokenchik"`, overridden from
the command line at startup). -/
def SECRET_TOKEN : String := "tokenchik"

/-- Python `str.partition(" ")`: the part before the first space, and (when a
space occurs) the rest of the string after it. -/
def splitFirstSpace : List Char → List Char × Option (List Char)
  | [] => ([], none)
  | c :: rest =>
    if c = ' ' then ([], some rest)
    else
      let p := splitFirstSpace rest
      (c :: p.1, p.2)

/-- FastAPI's `HTTPBearer` security scheme: a missing `Authorization`
header, an empty scheme or credential part, or a non-`bearer` scheme is
rejected with 403 before the route dependency runs; otherwise the
credential string (everything after the first space) is handed on. -/
def parseAuthHeader (header : Option String) : Except Nat String :=
  match header with
  | none => Except.error 403
  | some h =>
    let p := splitFirstSpace h.toList
    let scheme := p.1
    let credentials := match p.2 with | some cs => cs | none => []
    if h = "" ∨ scheme = [] ∨ credentials = [] then Except.error 403
    else if scheme.map Char.toLower ≠ "bearer".toList then Except.error 403
    else Except.ok (String.mk credentials)

/-- The `token_is_valid` dependency stacked on `HTTPBearer`: a scheme-level
rejection keeps its 403; a credential differing from the secret is rejected
with 401; otherwise the request proceeds (`none`). -/
def token_is_valid (secret : String) (header : Option String) : Option Nat :=
  match parseAuthHeader header with
  | Except.error s => some s
  | Except.ok creds => if creds ≠ secret then some 401 else none

/-- POST /nodes as routed: auth guard first, handler only on success. -/
def postNodesRoute (secret : String) (header : Option String)
    (body : List (String × JVal)) (g : Graph) : Nat × Graph :=
  match token_is_valid secret header with
  | some s => (s, g)
  | none => postNodes body g

/-- DELETE /nodes/{label}/{node_id} as routed: auth guard first. -/
def deleteNodesRoute (secret : String) (header : Option String)
    (lab : String) (node_id : Int) (g : Graph) : Nat × Graph :=
  match token_is_valid secret header with
  | some s => (s, g)
  | none => deleteNodeAndRelations lab node_id g

/-! ## `Neo4jHandler.create_user` (MERGE-based helper, not used by any route) -/

/-- Cypher `SET n.k = v`: overwrite the property if present, add it
otherwise. -/
def setProp (ps : List (String × JVal)) (k : String) (v : JVal) :
    List (String × JVal) :=
  if ps.any (fun p => decide (p.1 = k)) then
    ps.map (fun p => if p.1 = k then (k, v) else p)
  else ps ++ [(k, v)]

/-- The `SET u.name = $name, u.screen_name = $screen_name, u.sex = $sex,
u.city = $city` clause of `create_user`. -/
def setUserFields (ps : List (String × JVal)) (nm sn sx ct : JVal) :
    List (String × JVal) :=
  setProp (setProp (setProp (setProp ps "name" nm) "screen_name" sn) "sex" sx) "city" ct

/-- The helper `Neo4jHandler.create_user`: `MERGE (u:User {id: $id})` then SET the four
fields.  MERGE on a null id is a query error (`none`), as is a missing
parameter; on a match the SET applies to every matched node, otherwise a
fresh `User` node with only the id is created and then SET. -/
def create_user (d : List (String × JVal)) (g : Graph) : Option Graph :=
  match plookup d "id", plookup d "name", plookup d "screen_name",
        plookup d "sex", plookup d "city" with
  | some i, some nm, some sn, some sx, some ct =>
    if i = JVal.js Val.vnull then none
    else if (g.nodes.filter (nodeMatches "User" i)).isEmpty then
      some { g with
        nodes := g.nodes ++ [⟨g.nextId, "User", setUserFields [("id", i)] nm sn sx ct⟩],
        nextId := g.nextId + 1 }
    else
      some { g with nodes := g.nodes.map (fun n =>
        if nodeMatches "User" i n then
          { n with props := setUserFields n.props nm sn sx ct }
        else n) }
  | _, _, _, _, _ => none

/-! ## `Neo4jHandler.query` (the fixed query catalog) -/

/-- The five keys of the `queries` dict in `Neo4jHandler.query`. -/
def catalogNames : List String :=
  ["users_count", "groups_count", "top_users", "top_groups", "mutual_followers"]

/-- The `queries` dict: symbolic name to query text. -/
def catalogText (name : String) : Option String :=
  if name = "users_count" then
    some "MATCH (u:User) RETURN COUNT(u) AS count"
  else if name = "groups_count" then
    some "MATCH (g:Group) RETURN COUNT(g) AS count"
  else if name = "top_users" then
    some "MATCH (u:User)<-[:FOLLOWS]-() RETURN u.id, u.name, COUNT(*) AS followers_count ORDER BY followers_count DESC LIMIT 5"
  else if name = "top_groups" then
    some "MATCH (g:Group)<-[:SUBSCRIBED]-() RETURN g.id, g.name, COUNT(*) AS subscribers_count ORDER BY subscribers_count DESC LIMIT 5"
  else if name = "mutual_followers" then
    some "MATCH (u1:User)-[:FOLLOWS]->(u2:User)-[:FOLLOWS]->(u1) RETURN u1.id, u2.id"
  else none

/-- Query `MATCH (u:User) RETURN COUNT(u)`. -/
def usersCount (g : Graph) : Nat :=
  (g.nodes.filter (fun n => decide (n.nodeLabel = "User"))).length

/-- Query `MATCH (g:Group) RETURN COUNT(g)`. -/
def groupsCount (g : Graph) : Nat :=
  (g.nodes.filter (fun n => decide (n.nodeLabel = "Group"))).length

/-- Resolve an internal node id to its (first) node. -/
def nodeById (g : Graph) (i : Nat) : Option GNode :=
  g.nodes.find? (fun n => decide (n.nid = i))

/-- The `mutual_followers` query: pairs of distinct FOLLOWS edges forming a
two-cycle between User nodes (Cypher relationship uniqueness makes the two
edges of a match distinct). -/
def mutualFollowers (g : Graph) : List (List (String × JVal)) :=
  g.edges.enum.flatMap (fun p1 =>
    g.edges.enum.filterMap (fun p2 =>
      if p1.1 ≠ p2.1 ∧ p1.2.rtype = "FOLLOWS" ∧ p2.2.rtype = "FOLLOWS"
          ∧ p1.2.dst = p2.2.src ∧ p2.2.dst = p1.2.src then
        match nodeById g p1.2.src, nodeById g p1.2.dst with
        | some n1, some n2 =>
          if n1.nodeLabel = "User" ∧ n2.nodeLabel = "User" then
            some [("u1.id", propOf n1 "id"), ("u2.id", propOf n2 "id")]
          else none
        | _, _ => none
      else none))

/-- Rows of the catalog's `top_users` query. -/
def topUsersRows (g : Graph) : List (List (String × JVal)) :=
  ((sortDesc (tally (incomingRows g "User" "FOLLOWS"))).take 5).map (fun p =>
    [("u.id", p.1.1), ("u.name", p.1.2), ("followers_count", JVal.js (Val.vint p.2))])

/-- Rows of the catalog's `top_groups` query. -/
def topGroupsRows (g : Graph) : List (List (String × JVal)) :=
  ((sortDesc (tally (incomingRows g "Group" "SUBSCRIBED"))).take 5).map (fun p =>
    [("g.id", p.1.1), ("g.name", p.1.2), ("subscribers_count", JVal.js (Val.vint p.2))])

/-- The method `Neo4jHandler.query`: run the catalog query named `name`; the `KeyError`
branch for an unknown name returns the empty row list instead of raising. -/
def handlerQuery (name : String) (g : Graph) : List (List (String × JVal)) :=
  match catalogText name with
  | none => []
  | some _ =>
    if name = "users_count" then [[("count", JVal.js (Val.vint (usersCount g)))]]
    else if name = "groups_count" then [[("count", JVal.js (Val.vint (groupsCount g)))]]
    else if name = "top_users" then topUsersRows g
    else if name = "top_groups" then topGroupsRows g
    else mutualFollowers g

/-! ## Concrete states and bodies used in witnesses and counterexamples -/

/-- The empty graph. -/
def g0 : Graph := ⟨[], [], 0⟩

/-- The minimal User body of the spec's round-trip example. -/
def b1 : List (String × JVal) :=
  [("id", JVal.js (Val.vint 1)), ("label", JVal.js (Val.vstr "User")),
   ("name", JVal.js (Val.vstr "A")), ("sex", JVal.js (Val.vint 1)),
   ("city", JVal.js (Val.vstr "X")), ("screen_name", JVal.js (Val.vstr "a"))]

/-- A POST /nodes body shaped like the handler docstring's example: a User
with both a `follows` and a `subscribed` array. -/
def bodyC1 : List (String × JVal) :=
  [("id", JVal.js (Val.vint 11111111)), ("label", JVal.js (Val.vstr "User")),
   ("name", JVal.js (Val.vstr "Chel Chelikovich")), ("sex", JVal.js (Val.vint 1)),
   ("city", JVal.js (Val.vstr "T")), ("screen_name", JVal.js (Val.vstr "chel")),
   ("follows", JVal.jarr [Val.vint 11111111, Val.vint 506443521]),
   ("subscribed", JVal.jarr [Val.vint 178256900, Val.vint 34491914])]

/-- A graph holding the two Groups and the User targeted by `bodyC1`. -/
def gC1 : Graph :=
  ⟨[⟨0, "Group", [("id", JVal.js (Val.vint 178256900))]⟩,
    ⟨1, "Group", [("id", JVal.js (Val.vint 34491914))]⟩,
    ⟨2, "User", [("id", JVal.js (Val.vint 506443521))]⟩], [], 3⟩

/-- A minimal User body with symbolic field values, as in the spec's
round-trip property (the `label` key is required by the CREATE query). -/
def mkUserBody (k : Int) (nm sx ct sn : JVal) : List (String × JVal) :=
  [("id", JVal.js (Val.vint k)), ("label", JVal.js (Val.vstr "User")),
   ("name", nm), ("sex", sx), ("city", ct), ("screen_name", sn)]

/-- The body `b1` with its `city` key removed. -/
def bMissing : List (String × JVal) :=
  [("id", JVal.js (Val.vint 1)), ("label", JVal.js (Val.vstr "User")),
   ("name", JVal.js (Val.vstr "A")), ("sex", JVal.js (Val.vint 1)),
   ("screen_name", JVal.js (Val.vstr "a"))]

/-- The graph produced by POSTing `b1` to the empty graph. -/
def gb1 : Graph :=
  ⟨[⟨0, "User",
     [("id", JVal.js (Val.vint 1)), ("label", JVal.js (Val.vstr "User")),
      ("name", JVal.js (Val.vstr "A")), ("sex", JVal.js (Val.vint 1)),
      ("city", JVal.js (Val.vstr "X")), ("screen_name", JVal.js (Val.vstr "a"))]⟩],
   [], 1⟩

/-- A graph holding a single User node with id 1. -/
def gU : Graph :=
  ⟨[⟨0, "User",
     [("id", JVal.js (Val.vint 1)), ("name", JVal.js (Val.vstr "A")),
      ("screen_name", JVal.js (Val.vstr "a")), ("sex", JVal.js (Val.vint 1)),
      ("city", JVal.js (Val.vstr "X"))]⟩], [], 1⟩

/-! ## Helper lemmas -/

/-- Membership through `insertDesc`. -/
theorem mem_insertDesc {x z : (JVal × JVal) × Nat} {l : List ((JVal × JVal) × Nat)}
    (h : z ∈ insertDesc x l) : z = x ∨ z ∈ l := by
  induction l with
  | nil => simpa [insertDesc] using h
  | cons y ys ih =>
    by_cases hc : y.2 < x.2
    · rw [insertDesc, if_pos hc] at h
      exact (List.mem_cons.mp h).imp id id
    · rw [insertDesc, if_neg hc] at h
      rcases List.mem_cons.mp h with h1 | h2
      · subst h1; exact Or.inr (List.mem_cons_self _ _)
      · rcases ih h2 with h3 | h4
        · exact Or.inl h3
        · exact Or.inr (List.mem_cons_of_mem _ h4)

/-- Inserting into a count-descending list keeps it count-descending. -/
theorem pairwise_insertDesc {x : (JVal × JVal) × Nat} {l : List ((JVal × JVal) × Nat)}
    (h : l.Pairwise (fun a b => b.2 ≤ a.2)) :
    (insertDesc x l).Pairwise (fun a b => b.2 ≤ a.2) := by
  induction l with
  | nil => simp [insertDesc]
  | cons y ys ih =>
    rcases List.pairwise_cons.mp h with ⟨hy, hys⟩
    by_cases hc : y.2 < x.2
    · rw [insertDesc, if_pos hc]
      refine List.pairwise_cons.mpr ⟨?_, h⟩
      intro z hz
      rcases List.mem_cons.mp hz with rfl | hz2
      · exact Nat.le_of_lt hc
      · exact Nat.le_trans (hy z hz2) (Nat.le_of_lt hc)
    · rw [insertDesc, if_neg hc]
      refine List.pairwise_cons.mpr ⟨?_, ih hys⟩
      intro z hz
      rcases mem_insertDesc hz with rfl | hz2
      · exact Nat.le_of_not_lt hc
      · exact hy z hz2

/-- The aggregation rows come out of `sortDesc` count-descending. -/
theorem sortDesc_pairwise (l : List ((JVal × JVal) × Nat)) :
    (sortDesc l).Pairwise (fun a b => b.2 ≤ a.2) := by
  induction l with
  | nil => simp [sortDesc]
  | cons x xs ih =>
    have : sortDesc (x :: xs) = insertDesc x (sortDesc xs) := rfl
    rw [this]
    exact pairwise_insertDesc ih

/-- Two graphs with the same components are equal. -/
theorem graph_ext {a b : Graph} (h1 : a.nodes = b.nodes) (h2 : a.edges = b.edges)
    (h3 : a.nextId = b.nextId) : a = b := by
  cases a; cases b; simp_all

/-- The bearer scheme's only rejection status is 403. -/
theorem parseAuthHeader_error (header : Option String) (e : Nat)
    (h : parseAuthHeader header = Except.error e) : e = 403 := by
  unfold parseAuthHeader at h
  cases header with
  | none => exact (Except.error.inj h).symm
  | some s =>
    dsimp only at h
    split_ifs at h <;> exact (Except.error.inj h).symm

/-- The CREATE query fails when a referenced parameter is missing. -/
theorem runCreateNode_none_of_missing (body : List (String × JVal)) (g : Graph)
    (k : String) (hk : k ∈ requiredKeys) (hnone : plookup body k = none) :
    runCreateNode body g = none := by
  unfold runCreateNode
  split
  · rename_i i l nm sx ct sn h1 h2 h3 h4 h5 h6
    simp only [requiredKeys, List.mem_cons, List.not_mem_nil, or_false] at hk
    rcases hk with rfl | rfl | rfl | rfl | rfl | rfl <;> simp_all
  · rfl

/-- The CREATE query succeeds when all six parameters are present, adding
exactly one node. -/
theorem runCreateNode_eq_some (body : List (String × JVal)) (g : Graph)
    (i l nm sx ct sn : JVal)
    (h1 : plookup body "id" = some i) (h2 : plookup body "label" = some l)
    (h3 : plookup body "name" = some nm) (h4 : plookup body "sex" = some sx)
    (h5 : plookup body "city" = some ct) (h6 : plookup body "screen_name" = some sn) :
    runCreateNode body g =
      some { g with nodes := g.nodes ++ [mkCreatedNode body g.nextId i l nm sx ct sn],
                    nextId := g.nextId + 1 } := by
  unfold runCreateNode
  rw [h1, h2, h3, h4, h5, h6]

/-- Inversion of a successful CREATE query. -/
theorem runCreateNode_some_inv (body : List (String × JVal)) (g g1 : Graph)
    (h : runCreateNode body g = some g1) :
    ∃ i l nm sx ct sn,
      plookup body "id" = some i ∧ plookup body "label" = some l ∧
      plookup body "name" = some nm ∧ plookup body "sex" = some sx ∧
      plookup body "city" = some ct ∧ plookup body "screen_name" = some sn ∧
      g1 = { g with nodes := g.nodes ++ [mkCreatedNode body g.nextId i l nm sx ct sn],
                    nextId := g.nextId + 1 } := by
  unfold runCreateNode at h
  split at h
  · rename_i i l nm sx ct sn h1 h2 h3 h4 h5 h6
    exact ⟨i, l, nm, sx, ct, sn, h1, h2, h3, h4, h5, h6, (Option.some.inj h).symm⟩
  · cases h

/-! ## Claim theorems -/

/-- C6: GET /top-users and GET /top-groups each return at most 5 entries,
sorted in descending order of the incoming relationship count (FOLLOWS for
users, SUBSCRIBED for groups). -/
theorem claim_C6_thm (g : Graph) :
    (topUsers g).length ≤ 5 ∧
    (topUsers g).Pairwise (fun a b => b.2.2 ≤ a.2.2) ∧
    (topGroups g).length ≤ 5 ∧
    (topGroups g).Pairwise (fun a b => b.2.2 ≤ a.2.2) := by
  refine ⟨?_, ?_, ?_, ?_⟩
  · simp only [topUsers, List.length_map, List.length_take]
    exact Nat.min_le_left _ _
  · rw [topUsers, List.pairwise_map]
    exact (sortDesc_pairwise _).sublist (List.take_sublist 5 _)
  · simp only [topGroups, List.length_map, List.length_take]
    exact Nat.min_le_left _ _
  · rw [topGroups, List.pairwise_map]
    exact (sortDesc_pairwise _).sublist (List.take_sublist 5 _)

/-- C8: the query catalog resolves exactly the five names `users_count`,
`groups_count`, `top_users`, `top_groups`, `mutual_followers`; any other
name makes `Neo4jHandler.query` return the empty row list, not an error. -/
theorem claim_C8_thm :
    (∀ name : String, (catalogText name).isSome = true ↔ name ∈ catalogNames) ∧
    (∀ (name : String) (g : Graph), name ∉ catalogNames → handlerQuery name g = []) := by
  constructor
  · intro name
    unfold catalogText catalogNames
    split_ifs with h1 h2 h3 h4 h5 <;> simp_all
  · intro name g hn
    have hnone : catalogText name = none := by
      unfold catalogText
      unfold catalogNames at hn
      split_ifs with h1 h2 h3 h4 h5 <;> simp_all
    unfold handlerQuery
    rw [hnone]

/-- Witness for C8 at the concrete names `users_count` and `bogus`. -/
theorem claim_C8_witness :
    ((catalogText "users_count").isSome = true ↔ "users_count" ∈ catalogNames) ∧
    handlerQuery "bogus" g0 = [] :=
  ⟨claim_C8_thm.1 "users_count", claim_C8_thm.2 "bogus" g0 (by decide)⟩

/-- C10: a path id whose `toInteger` coercion fails matches no node, so GET
/user/{user_id} answers 404 (never a 400/422 validation error) for every
non-numeric id, on every graph. -/
theorem claim_C10_thm (uid : String) (g : Graph) (h : toIntegerStr uid = none) :
    getUser uid g = (404, []) := by
  unfold getUser userLookup
  rw [h]

/-- Witness for C10 at the non-numeric id `abc`. -/
theorem claim_C10_witness :
    toIntegerStr "abc" = none ∧ getUser "abc" gU = (404, []) :=
  ⟨by decide, claim_C10_thm "abc" gU (by decide)⟩

/-- C4: DELETE /nodes/{label}/{node_id} answers success, removes exactly the
matching nodes, removes exactly the edges incident (in either direction) to a
matching node, and is a no-op success when no node matches. -/
theorem claim_C4_thm (lab : String) (node_id : Int) (g : Graph) :
    (deleteNodeAndRelations lab node_id g).1 = 200 ∧
    (deleteNodeAndRelations lab node_id g).2.nodes =
      g.nodes.filter (fun n => !nodeMatches lab (JVal.js (Val.vint node_id)) n) ∧
    (deleteNodeAndRelations lab node_id g).2.edges =
      g.edges.filter (fun e =>
        !(g.nodes.any (fun n => nodeMatches lab (JVal.js (Val.vint node_id)) n
            && decide (n.nid = e.src)) && hasNid g e.dst)
        && !(g.nodes.any (fun n => nodeMatches lab (JVal.js (Val.vint node_id)) n
            && decide (n.nid = e.dst)) && hasNid g e.src)) ∧
    ((∀ n ∈ g.nodes, nodeMatches lab (JVal.js (Val.vint node_id)) n = false) →
      (deleteNodeAndRelations lab node_id g).2 = g) := by
  have hedges : (deleteNodeAndRelations lab node_id g).2.edges =
      g.edges.filter (fun e =>
        !(g.nodes.any (fun n => nodeMatches lab (JVal.js (Val.vint node_id)) n
            && decide (n.nid = e.src)) && hasNid g e.dst)
        && !(g.nodes.any (fun n => nodeMatches lab (JVal.js (Val.vint node_id)) n
            && decide (n.nid = e.dst)) && hasNid g e.src)) := by
    show ((g.edges.filter _).filter _) = _
    rw [List.filter_filter]
    exact List.filter_congr (fun e _ => Bool.and_comm _ _)
  refine ⟨rfl, rfl, hedges, ?_⟩
  intro hall
  have hfalse : ∀ n ∈ g.nodes, ∀ i : Nat,
      (nodeMatches lab (JVal.js (Val.vint node_id)) n && decide (n.nid = i)) = false := by
    intro n hn i
    rw [hall n hn]
    rfl
  refine graph_ext ?_ ?_ rfl
  · show g.nodes.filter _ = g.nodes
    refine List.filter_eq_self.mpr ?_
    intro n hn
    rw [hall n hn]
    rfl
  · rw [hedges]
    refine List.filter_eq_self.mpr ?_
    intro e _
    have h1 : g.nodes.any (fun n => nodeMatches lab (JVal.js (Val.vint node_id)) n
        && decide (n.nid = e.src)) = false := by
      rw [List.any_eq_false]
      intro n hn
      rw [hfalse n hn e.src]
      exact Bool.false_ne_true
    have h2 : g.nodes.any (fun n => nodeMatches lab (JVal.js (Val.vint node_id)) n
        && decide (n.nid = e.dst)) = false := by
      rw [List.any_eq_false]
      intro n hn
      rw [hfalse n hn e.dst]
      exact Bool.false_ne_true
    rw [h1, h2]
    rfl

/-- Witness for C4: deleting from a graph with no matching node is a no-op
success. -/
theorem claim_C4_witness :
    (deleteNodeAndRelations "User" 7 gU).2 = gU ∧
    (deleteNodeAndRelations "User" 7 gU).1 = 200 :=
  ⟨(claim_C4_thm "User" 7 gU).2.2.2 (by decide), (claim_C4_thm "User" 7 gU).1⟩

/-- C7: with a numeric path id, GET /user/{user_id} answers 404 exactly when
no User node carries that id; when the lookup is nonempty it answers 200
with the flattened id/name/screen_name/sex/city fields of the first matching
node. -/
theorem claim_C7_thm (g : Graph) (uid : String) (k : Int)
    (h : toIntegerStr uid = some k) :
    ((getUser uid g).1 = 404 ↔
      ∀ n ∈ g.nodes, nodeMatches "User" (JVal.js (Val.vint k)) n = false) ∧
    (∀ u us, g.nodes.filter (nodeMatches "User" (JVal.js (Val.vint k))) = u :: us →
      getUser uid g = (200, userFields u)) := by
  have hl : userLookup uid g = g.nodes.filter (nodeMatches "User" (JVal.js (Val.vint k))) := by
    unfold userLookup
    rw [h]
  constructor
  · rcases hf : g.nodes.filter (nodeMatches "User" (JVal.js (Val.vint k))) with _ | ⟨u, us⟩
    · have hget : getUser uid g = (404, []) := by
        unfold getUser
        rw [hl, hf]
      rw [hget]
      constructor
      · intro _ n hn
        have h2 := List.filter_eq_nil_iff.mp hf n hn
        exact Bool.eq_false_iff.mpr h2
      · intro _
        rfl
    · have hget : getUser uid g = (200, userFields u) := by
        unfold getUser
        rw [hl, hf]
      rw [hget]
      constructor
      · intro h404
        exact absurd (show (200 : Nat) = 404 from h404) (by decide)
      · intro hall
        have hu : u ∈ g.nodes.filter (nodeMatches "User" (JVal.js (Val.vint k))) := by
          rw [hf]
          exact List.mem_cons_self _ _
        have hmem := List.mem_filter.mp hu
        have := hmem.2
        rw [hall u hmem.1] at this
        exact absurd this (by decide)
  · intro u us hf
    unfold getUser
    rw [hl, hf]

/-- Witness for C7 at a concrete one-user graph. -/
theorem claim_C7_witness :
    getUser "1" gU = (200, userFields
      ⟨0, "User",
       [("id", JVal.js (Val.vint 1)), ("name", JVal.js (Val.vstr "A")),
        ("screen_name", JVal.js (Val.vstr "a")), ("sex", JVal.js (Val.vint 1)),
        ("city", JVal.js (Val.vstr "X"))]⟩) :=
  (claim_C7_thm gU "1" 1 (by decide)).2
    ⟨0, "User",
     [("id", JVal.js (Val.vint 1)), ("name", JVal.js (Val.vstr "A")),
      ("screen_name", JVal.js (Val.vstr "a")), ("sex", JVal.js (Val.vint 1)),
      ("city", JVal.js (Val.vstr "X"))]⟩ [] (by decide)

/-- C5 counterexample: a POST /nodes request with no Authorization header at
all is rejected with status 403 (by the bearer security scheme), not with
401 as the claim states. -/
theorem claim_C5_counterexample :
    postNodesRoute SECRET_TOKEN none b1 g0 = (403, g0) ∧ (403 : Nat) ≠ 401 :=
  ⟨rfl, by decide⟩

/-- C5 (amended): a missing header is rejected with 403 by the security
scheme; a present bearer credential differing from the secret is rejected
with 401; every auth rejection (status 401 or 403) short-circuits both
mutating routes before any handler logic, leaving the graph unchanged. -/
theorem claim_C5_thm (secret : String) (header : Option String)
    (body : List (String × JVal)) (g : Graph) (lab : String) (nid : Int) :
    (header = none → token_is_valid secret header = some 403) ∧
    (∀ creds, parseAuthHeader header = Except.ok creds → creds ≠ secret →
      token_is_valid secret header = some 401) ∧
    (∀ s, token_is_valid secret header = some s →
      (s = 401 ∨ s = 403) ∧
      postNodesRoute secret header body g = (s, g) ∧
      deleteNodesRoute secret header lab nid g = (s, g)) := by
  refine ⟨?_, ?_, ?_⟩
  · rintro rfl
    rfl
  · intro creds hok hne
    unfold token_is_valid
    rw [hok]
    simp [hne]
  · intro s hs
    refine ⟨?_, ?_, ?_⟩
    · unfold token_is_valid at hs
      cases hp : parseAuthHeader header with
      | error e =>
        rw [hp] at hs
        dsimp only at hs
        right
        have he := parseAuthHeader_error header e hp
        subst he
        exact (Option.some.inj hs).symm
      | ok creds =>
        rw [hp] at hs
        dsimp only at hs
        by_cases hc : creds = secret
        · simp [hc] at hs
        · left
          rw [if_pos hc] at hs
          exact (Option.some.inj hs).symm
    · unfold postNodesRoute
      rw [hs]
    · unfold deleteNodesRoute
      rw [hs]

/-- Witness for C5: a wrong bearer token on both mutating routes. -/
theorem claim_C5_witness :
    postNodesRoute SECRET_TOKEN (some "Bearer wrong") b1 gU = (401, gU) ∧
    deleteNodesRoute SECRET_TOKEN (some "Bearer wrong") "User" 1 gU = (401, gU) :=
  ⟨((claim_C5_thm SECRET_TOKEN (some "Bearer wrong") b1 gU "User" 1).2.2 401 (by decide)).2.1,
   ((claim_C5_thm SECRET_TOKEN (some "Bearer wrong") b1 gU "User" 1).2.2 401 (by decide)).2.2⟩

/-- C1 (code evaluated at the failing input): POSTing the handler
docstring's own example body — which carries a `subscribed` array naming two
existing Groups — succeeds with 200 yet creates not a single SUBSCRIBED
relationship, because the handler guards on the key `"subscribes"` (and its
subscribe query would target `User`-labelled nodes anyway). -/
theorem claim_C1_thm :
    (postNodes bodyC1 gC1).1 = 200 ∧
    (postNodes bodyC1 gC1).2.edges.filter (fun e => decide (e.rtype = "SUBSCRIBED")) = [] ∧
    (postNodes bodyC1 gC1).2.edges =
      [⟨3, 3, "FOLLOWS"⟩, ⟨3, 2, "FOLLOWS"⟩] :=
  ⟨rfl, rfl, rfl⟩

/-- C2 counterexample: two authorized POST /nodes calls with the identical
User body `b1` (id 1) leave TWO nodes labelled User with id 1 in the graph —
the second call did not update the first node in place, so id uniqueness is
not preserved. -/
theorem claim_C2_counterexample :
    ((postNodesRoute SECRET_TOKEN (some "Bearer tokenchik") b1
        (postNodesRoute SECRET_TOKEN (some "Bearer tokenchik") b1 g0).2).2.nodes.filter
      (nodeMatches "User" (JVal.js (Val.vint 1)))).length = 2 := by
  decide

/-- C2 (amended): the POST /nodes route runs a plain CREATE — on any graph,
including one that already holds a node with the same label and id, a
successful call appends one fresh node rather than updating in place — while
the MERGE-based upsert semantics the claim describes live only in the
`Neo4jHandler.create_user` helper, which no route calls: on a graph already
holding a matching User, `create_user` rewrites the matched nodes' fields in
place and adds no node. -/
theorem claim_C2_thm (body d : List (String × JVal)) (g gm : Graph)
    (i l nm sx ct sn : JVal)
    (h1 : plookup body "id" = some i) (h2 : plookup body "label" = some l)
    (h3 : plookup body "name" = some nm) (h4 : plookup body "sex" = some sx)
    (h5 : plookup body "city" = some ct) (h6 : plookup body "screen_name" = some sn)
    (h7 : plookup body "follows" = none) (h8 : plookup body "subscribes" = none)
    (hne : body ≠ [])
    (i' nm' sn' sx' ct' : JVal)
    (hd1 : plookup d "id" = some i') (hd2 : plookup d "name" = some nm')
    (hd3 : plookup d "screen_name" = some sn') (hd4 : plookup d "sex" = some sx')
    (hd5 : plookup d "city" = some ct')
    (hnn : i' ≠ JVal.js Val.vnull)
    (hex : (gm.nodes.filter (nodeMatches "User" i')).isEmpty = false) :
    postNodes body g = (200,
      { g with nodes := g.nodes ++ [mkCreatedNode body g.nextId i l nm sx ct sn],
               nextId := g.nextId + 1 }) ∧
    create_user d gm = some { gm with nodes := gm.nodes.map (fun n =>
      if nodeMatches "User" i' n then
        { n with props := setUserFields n.props nm' sn' sx' ct' }
      else n) } := by
  constructor
  · unfold postNodes
    rw [if_neg hne, runCreateNode_eq_some body g i l nm sx ct sn h1 h2 h3 h4 h5 h6]
    have hf : followsStep body
        { g with nodes := g.nodes ++ [mkCreatedNode body g.nextId i l nm sx ct sn],
                 nextId := g.nextId + 1 } =
        some { g with nodes := g.nodes ++ [mkCreatedNode body g.nextId i l nm sx ct sn],
                      nextId := g.nextId + 1 } := by
      unfold followsStep
      rw [h7]
    have hsub : subscribesStep body
        { g with nodes := g.nodes ++ [mkCreatedNode body g.nextId i l nm sx ct sn],
                 nextId := g.nextId + 1 } =
        some { g with nodes := g.nodes ++ [mkCreatedNode body g.nextId i l nm sx ct sn],
                      nextId := g.nextId + 1 } := by
      unfold subscribesStep
      rw [h8]
    dsimp only
    rw [hf]
    dsimp only
    rw [hsub]
  · unfold create_user
    rw [hd1, hd2, hd3, hd4, hd5]
    dsimp only
    rw [if_neg hnn, if_neg (by rw [hex]; exact Bool.false_ne_true)]

/-- Witness for C2 at `b1` on the empty graph and at `b1` on a graph already
holding User id 1. -/
theorem claim_C2_witness :
    postNodes b1 g0 = (200,
      Graph.mk (g0.nodes ++ [mkCreatedNode b1 g0.nextId
          (JVal.js (Val.vint 1)) (JVal.js (Val.vstr "User")) (JVal.js (Val.vstr "A"))
          (JVal.js (Val.vint 1)) (JVal.js (Val.vstr "X")) (JVal.js (Val.vstr "a"))])
        g0.edges (g0.nextId + 1)) ∧
    create_user b1 gU = some { gU with nodes := gU.nodes.map (fun n =>
      if nodeMatches "User" (JVal.js (Val.vint 1)) n then
        GNode.mk n.nid n.nodeLabel (setUserFields n.props (JVal.js (Val.vstr "A"))
          (JVal.js (Val.vstr "a")) (JVal.js (Val.vint 1)) (JVal.js (Val.vstr "X")))
      else n) } :=
  claim_C2_thm b1 b1 g0 gU
    (JVal.js (Val.vint 1)) (JVal.js (Val.vstr "User")) (JVal.js (Val.vstr "A"))
    (JVal.js (Val.vint 1)) (JVal.js (Val.vstr "X")) (JVal.js (Val.vstr "a"))
    rfl rfl rfl rfl rfl rfl rfl rfl (by decide)
    (JVal.js (Val.vint 1)) (JVal.js (Val.vstr "A")) (JVal.js (Val.vstr "a"))
    (JVal.js (Val.vint 1)) (JVal.js (Val.vstr "X"))
    rfl rfl rfl rfl rfl (by decide) (by decide)

/-- C3: creating a User through an authorized POST /nodes with fields id,
name, screen_name, sex, city (on a graph with no User of that id), then
fetching GET /user/{id} with a path string coercing to that id, answers 200
with exactly the submitted values under exactly the keys id, name,
screen_name, sex, city. -/
theorem claim_C3_thm (g : Graph) (k : Int) (nm sx ct sn : JVal)
    (uid secret : String) (header : Option String)
    (hauth : token_is_valid secret header = none)
    (huid : toIntegerStr uid = some k)
    (hfresh : ∀ n ∈ g.nodes, nodeMatches "User" (JVal.js (Val.vint k)) n = false) :
    ∃ g2 : Graph,
      postNodesRoute secret header (mkUserBody k nm sx ct sn) g = (200, g2) ∧
      getUser uid g2 = (200,
        [("id", JVal.js (Val.vint k)), ("name", nm), ("screen_name", sn),
         ("sex", sx), ("city", ct)]) := by
  refine ⟨{ g with
    nodes := g.nodes ++ [mkCreatedNode (mkUserBody k nm sx ct sn) g.nextId
      (JVal.js (Val.vint k)) (JVal.js (Val.vstr "User")) nm sx ct sn],
    nextId := g.nextId + 1 }, ?_, ?_⟩
  · unfold postNodesRoute
    rw [hauth]
    rfl
  · have hmatch : nodeMatches "User" (JVal.js (Val.vint k))
        (mkCreatedNode (mkUserBody k nm sx ct sn) g.nextId
          (JVal.js (Val.vint k)) (JVal.js (Val.vstr "User")) nm sx ct sn) = true := by
      unfold nodeMatches
      rw [decide_eq_true_eq]
      exact ⟨rfl, by simp, rfl⟩
    have hnil : g.nodes.filter (nodeMatches "User" (JVal.js (Val.vint k))) = [] := by
      refine List.filter_eq_nil_iff.mpr ?_
      intro n hn
      rw [hfresh n hn]
      exact Bool.false_ne_true
    unfold getUser userLookup
    rw [huid]
    show (match (g.nodes ++ [_]).filter (nodeMatches "User" (JVal.js (Val.vint k))) with
      | [] => ((404 : Nat), ([] : List (String × JVal)))
      | u :: _ => (200, userFields u)) = _
    rw [List.filter_append, hnil, List.filter_cons_of_pos hmatch]
    rfl

/-- Witness for C3: the spec's own example round-trip on the empty graph. -/
theorem claim_C3_witness :
    ∃ g2 : Graph,
      postNodesRoute "tokenchik" (some "Bearer tokenchik")
        (mkUserBody 1 (JVal.js (Val.vstr "A")) (JVal.js (Val.vint 1))
          (JVal.js (Val.vstr "X")) (JVal.js (Val.vstr "a"))) g0 = (200, g2) ∧
      getUser "1" g2 = (200,
        [("id", JVal.js (Val.vint 1)), ("name", JVal.js (Val.vstr "A")),
         ("screen_name", JVal.js (Val.vstr "a")), ("sex", JVal.js (Val.vint 1)),
         ("city", JVal.js (Val.vstr "X"))]) :=
  claim_C3_thm g0 1 (JVal.js (Val.vstr "A")) (JVal.js (Val.vint 1))
    (JVal.js (Val.vstr "X")) (JVal.js (Val.vstr "a")) "1" "tokenchik"
    (some "Bearer tokenchik") (by decide) (by decide) (by decide)

/-- C9: every successful CREATE writes exactly the property set
{id, label, name, sex, city, screen_name} onto the one new node, whatever
the label; and a nonempty body missing any of those six keys makes POST
/nodes fail with 500 and leave the graph unchanged. -/
theorem claim_C9_thm (body : List (String × JVal)) (g : Graph) (hne : body ≠ []) :
    ((∃ k ∈ requiredKeys, plookup body k = none) → postNodes body g = (500, g)) ∧
    (∀ g1, runCreateNode body g = some g1 →
      g1.nodes.map (fun n => n.props.map Prod.fst) =
        g.nodes.map (fun n => n.props.map Prod.fst) ++ [requiredKeys]) := by
  constructor
  · rintro ⟨k, hk, hnone⟩
    unfold postNodes
    rw [if_neg hne, runCreateNode_none_of_missing body g k hk hnone]
  · intro g1 h
    obtain ⟨i, l, nm, sx, ct, sn, _, _, _, _, _, _, rfl⟩ :=
      runCreateNode_some_inv body g g1 h
    simp [mkCreatedNode, requiredKeys]

/-- Witness for C9: a body missing `city` fails with 500; the full body `b1`
creates a node carrying exactly the six keys. -/
theorem claim_C9_witness :
    postNodes bMissing g0 = (500, g0) ∧
    gb1.nodes.map (fun n => n.props.map Prod.fst) =
      g0.nodes.map (fun n => n.props.map Prod.fst) ++ [requiredKeys] :=
  ⟨(claim_C9_thm bMissing g0 (by decide)).1 ⟨"city", by decide, by decide⟩,
   (claim_C9_thm b1 g0 (by decide)).2 gb1 (by decide)⟩

end VkApi
